import Mathlib

/-!
# Verification of the Lunaticbot message-intake and quote-dispatch pipeline

Shallow embedding of `src/main.py`: the address validator
(`is_valid_solana_address`), the quote client (`execute_jupiter_swap`),
and the message handler (`handle_message`), together with proofs of the
testable properties of the design specification.

The embedding models the Python runtime behaviour of the source:
regex matching semantics of `re.match` with a `$` anchor, Python
truthiness of JSON values, dictionary subscripting that can raise
`KeyError`, and exception handling (`try`/`except`) as explicit
outcome values.
-/

/-! ## Address validation (src/main.py, lines 42-44)

The source checks the candidate against the regular expression
`[1-9A-HJ-NP-Za-km-z]` repeated 32 to 44 times, anchored on both sides.
-/

/-- A character of the regex class `[1-9A-HJ-NP-Za-km-z]`
(code points: 49-57, 65-72, 74-78, 80-90, 97-107, 109-122). -/
def isBase58Char (c : Char) : Bool :=
  (c.val ≥ 49 && c.val ≤ 57) || (c.val ≥ 65 && c.val ≤ 72) ||
  (c.val ≥ 74 && c.val ≤ 78) || (c.val ≥ 80 && c.val ≤ 90) ||
  (c.val ≥ 97 && c.val ≤ 107) || (c.val ≥ 109 && c.val ≤ 122)

/-- The body of the regex without anchors: 32 to 44 characters of the class. -/
def base58Core (l : List Char) : Bool :=
  32 ≤ l.length && l.length ≤ 44 && l.all isBase58Char

/-- Embedding of `is_valid_solana_address` (src/main.py, lines 42-44):
`re.match` of the pattern anchored with a dollar sign.  Without
`re.MULTILINE`, a Python dollar anchor matches at the end of the string
or just before a newline that is the last character of the string, so
the function also accepts a well-formed core followed by one trailing
newline. -/
def is_valid_solana_address (s : String) : Bool :=
  base58Core s.data ||
    (s.data.getLast? == some '\n' && base58Core s.data.dropLast)

/-- The alphabet as the specification words it: digits 1-9, uppercase
letters except I and O, lowercase letters except l. -/
def specBase58Char (c : Char) : Bool :=
  (c.isDigit && c ≠ '0') ||
  (c.isUpper && c ≠ 'I' && c ≠ 'O') ||
  (c.isLower && c ≠ 'l')

/-! ## JSON values and Python truthiness

`execute_jupiter_swap` hands `response.json()` back to the caller, and
`handle_message` tests it with `if not quote` and subscripts it with the
key `outAmount`.  We model parsed JSON bodies as a small value type with
the Python notions the source relies on: truthiness, dictionary lookup
(subscripting a non-dictionary or a missing key raises, modelled as
`none`), and the rendering an f-string interpolation produces. -/

inductive Json where
  | null : Json
  | bool : Bool → Json
  | num : Int → Json
  | str : String → Json
  | arr : List Json → Json
  | obj : List (String × Json) → Json

/-- Python truthiness of a JSON value: None, False, 0, empty string,
empty list and empty dict are falsy; everything else is truthy. -/
def Json.truthy : Json → Bool
  | .null => false
  | .bool b => b
  | .num n => n != 0
  | .str s => s != ""
  | .arr xs => !xs.isEmpty
  | .obj fs => !fs.isEmpty

/-- Python subscripting `j[k]`: looks a key up in a dictionary.
`none` models an exception (`KeyError` on a missing key, `TypeError`
on a non-dictionary value). -/
def Json.get? (j : Json) (k : String) : Option Json :=
  match j with
  | .obj fs => fs.lookup k
  | _ => none

/-- The text an f-string interpolation of the value produces (Python
`str`).  Scalars are rendered as in Python; the rendering of nested
containers is abstracted (no claim interpolates a container). -/
def Json.pyStr : Json → String
  | .null => "None"
  | .bool true => "True"
  | .bool false => "False"
  | .num n => toString n
  | .str s => s
  | .arr _ => "<list>"
  | .obj _ => "<dict>"

/-- Python truthiness of an optional JSON value, as in `if not quote`
where `quote` may be Python `None` (falsy) or a JSON value. -/
def pyTruthyOpt : Option Json → Bool
  | none => false
  | some j => j.truthy

/-! ## Quote client (src/main.py, lines 46-63)

`execute_jupiter_swap` builds fixed query parameters, performs one GET,
calls `raise_for_status`, and parses the body; any exception is caught
and turned into `None`.  The network is modelled as an `HttpOutcome`:
either the GET raises (transport error) or it yields a final response
with a status code and a body whose JSON parse may fail. -/

/-- The query parameters of the quote request. -/
structure QuoteParams where
  inputMint : String
  outputMint : String
  amount : String
  slippageBps : Nat
deriving DecidableEq, Repr

/-- The parameters `execute_jupiter_swap` builds (src/main.py, lines
50-55): fixed wrapped-SOL input mint, the caller's address as output
mint, fixed amount string and fixed slippage. -/
def jupiterQuoteParams (token_address : String) : QuoteParams :=
  { inputMint := "So11111111111111111111111111111111111111112"
    outputMint := token_address
    amount := "10000000"
    slippageBps := 1500 }

/-- What the HTTP layer does for one GET: the request itself raises, or
a final response arrives with a status code and a parse result of its
body (`none` when `response.json()` raises). -/
inductive HttpOutcome where
  | transportError : HttpOutcome
  | response : Nat → Option Json → HttpOutcome

/-- `requests.Response.raise_for_status` raises exactly for client and
server error codes, 400 to 599. -/
def raise_for_status_raises (status : Nat) : Bool :=
  400 ≤ status && status < 600

/-- Embedding of `execute_jupiter_swap` (src/main.py, lines 46-63) as a
function of the HTTP outcome for its single GET: inside the `try` block
the GET may raise, `raise_for_status` raises on a 4xx or 5xx status,
and `response.json()` raises on an unparsable body; every exception is
caught by the `except` clause, which logs and returns `None` (modelled
as `none`).  On the remaining paths the parsed body is returned. -/
def execute_jupiter_swap (outcome : HttpOutcome) : Option Json :=
  match outcome with
  | .transportError => none
  | .response status body =>
    if raise_for_status_raises status then none
    else match body with
      | none => none
      | some j => some j

/-! ## Message handler (src/main.py, lines 81-112)

`handle_message` runs once per inbound non-command text message.  The
argument `message_text` is the inbound text after the `strip()` on line
83.  The observable behaviour is a trace of events (replies to the
sender, the registry insertion, the quote call with its parameters, and
the forward to the group chat), the registry contents afterwards, and
whether the handler finished normally or died on an unhandled
exception.  Replies to the sender are modelled as delivered; the
forward delivery may fail, which the source catches (lines 109-110). -/

/-- The reply sent for an invalid address (src/main.py, line 86). -/
def invalidAddressMsg : String :=
  "This doesn't look like a valid Solana address. Please try again."

/-- The reply sent for an already processed address (line 90). -/
def alreadyProcessedMsg : String :=
  "This address has already been processed."

/-- The reply sent when the quote is falsy (line 98). -/
def quoteFailedMsg : String :=
  "Failed to get quote from Jupiter. Please try again later."

/-- The confirmation f-string of line 112, with the address and the
rendered outAmount field interpolated. -/
def senderReplyText (address outAmount : String) : String :=
  "Processing swap for address: " ++ address ++ "\nQuote received: "
    ++ outAmount ++ " tokens"

/-- The group-chat f-string of line 106. -/
def groupText (address outAmount : String) : String :=
  "🚀 New Solana contract address received: `" ++ address
    ++ "`\nQuote received: " ++ outAmount ++ " tokens"

/-- One observable step of the handler. -/
inductive Event where
  | reply : String → Event
  | registryInsert : String → Event
  | quoteCall : QuoteParams → Event
  | forwardSend : String → String → Bool → Event
deriving DecidableEq, Repr

/-- Termination mode of one handler run: normal return, or an unhandled
`KeyError` on the given key. -/
inductive HandlerOutcome where
  | ok : HandlerOutcome
  | unhandledKeyError : String → HandlerOutcome
deriving DecidableEq, Repr

/-- Trace, final registry, and termination mode of one handler run. -/
structure HandleResult where
  events : List Event
  processed : List String
  outcome : HandlerOutcome
deriving DecidableEq, Repr

/-- The environment of one handler run: the `GROUP_CHAT_ID`
configuration value (`none` models an unset variable; the empty string
is also falsy in Python), what the network does for the quote call,
and whether the group-chat send succeeds. -/
structure Env where
  group_chat_id : Option String
  quoteOutcome : HttpOutcome
  forwardOk : Bool

/-- Python truthiness of `GROUP_CHAT_ID` (line 102). -/
def groupConfigured : Option String → Bool
  | none => false
  | some s => s != ""

/-- Embedding of `handle_message` (src/main.py, lines 81-112) on the
stripped message text and the current `processed_addresses` registry
(modelled as a list with set insertion).  Control flow of the source:
invalid address → rejection reply; already processed → notice; else the
address is added to the registry, the quote call runs, a falsy result
(Python `None` or a falsy JSON value) → failure reply; otherwise, when
`GROUP_CHAT_ID` is truthy the group message is built and sent inside a
`try` block — a `KeyError` while interpolating a missing outAmount
field, like a failed send, is caught there — and finally line 112
interpolates the outAmount field again for the sender reply, where a
missing field raises an unhandled `KeyError`. -/
def handle_message (env : Env) (processed : List String)
    (message_text : String) : HandleResult :=
  if !is_valid_solana_address message_text then
    ⟨[.reply invalidAddressMsg], processed, .ok⟩
  else if message_text ∈ processed then
    ⟨[.reply alreadyProcessedMsg], processed, .ok⟩
  else
    let processed1 := processed.insert message_text
    let pre : List Event :=
      [.registryInsert message_text, .quoteCall (jupiterQuoteParams message_text)]
    match execute_jupiter_swap env.quoteOutcome with
    | none => ⟨pre ++ [.reply quoteFailedMsg], processed1, .ok⟩
    | some q =>
      if !q.truthy then
        ⟨pre ++ [.reply quoteFailedMsg], processed1, .ok⟩
      else
        let fwd : List Event :=
          match env.group_chat_id with
          | none => []
          | some gid =>
            if gid == "" then []
            else
              match q.get? "outAmount" with
              | none => []
              | some amt =>
                [.forwardSend gid (groupText message_text amt.pyStr) env.forwardOk]
        match q.get? "outAmount" with
        | none => ⟨pre ++ fwd, processed1, .unhandledKeyError "outAmount"⟩
        | some amt =>
          ⟨pre ++ fwd ++ [.reply (senderReplyText message_text amt.pyStr)],
            processed1, .ok⟩

/-- Is the event a reply to the sender? -/
def Event.isReply : Event → Bool
  | .reply _ => true
  | _ => false

/-- Is the event the registry insertion? -/
def Event.isInsert : Event → Bool
  | .registryInsert _ => true
  | _ => false

/-- Is the event the quote call? -/
def Event.isQuoteCall : Event → Bool
  | .quoteCall _ => true
  | _ => false

/-- Is the event a message sent to the group chat? -/
def Event.isForward : Event → Bool
  | .forwardSend _ _ _ => true
  | _ => false

/-! ## Concrete values used by witnesses and counterexamples -/

/-- The canonical wrapped-SOL mint: a valid address (43 characters of
the base-58 alphabet). -/
def wrappedSol : String := "So11111111111111111111111111111111111111112"

/-- Thirty-two characters of the base-58 alphabet followed by a
newline: 33 characters, one of which is outside the alphabet. -/
def badNewlineAddr : String := "11111111111111111111111111111111\n"

/-- A truthy JSON body with no outAmount field. -/
def bodyWithoutOutAmount : Json := Json.obj [("routePlan", Json.arr [])]

/-- A well-formed quote body carrying an outAmount field. -/
def goodQuoteBody : Json := Json.obj [("outAmount", Json.str "123456")]

/-- The quote-client contract restated from the amended specification
wording: a failure result on a transport error, a 4xx or 5xx status,
or an unparsable body; otherwise the parsed body. -/
def quoteClientContract (outcome : HttpOutcome) : Option Json :=
  match outcome with
  | .transportError => none
  | .response status body =>
    if 400 ≤ status ∧ status < 600 then none else body

/-! ## Helper lemmas -/

/-- The regex character class coincides with the alphabet as the
specification words it. -/
theorem isBase58Char_eq_spec (c : Char) : isBase58Char c = specBase58Char c := by
  rw [Bool.eq_iff_iff]
  have hle : ∀ a b : UInt32, (a ≤ b) ↔ (a.toNat ≤ b.toNat) := fun a b => Iff.rfl
  have hne0 : (c ≠ '0') ↔ (c.val.toNat ≠ 48) := by
    rw [ne_eq, Char.ext_iff, UInt32.ext_iff]; exact Iff.rfl
  have hneI : (c ≠ 'I') ↔ (c.val.toNat ≠ 73) := by
    rw [ne_eq, Char.ext_iff, UInt32.ext_iff]; exact Iff.rfl
  have hneO : (c ≠ 'O') ↔ (c.val.toNat ≠ 79) := by
    rw [ne_eq, Char.ext_iff, UInt32.ext_iff]; exact Iff.rfl
  have hnel : (c ≠ 'l') ↔ (c.val.toNat ≠ 108) := by
    rw [ne_eq, Char.ext_iff, UInt32.ext_iff]; exact Iff.rfl
  simp only [isBase58Char, specBase58Char, Char.isDigit, Char.isUpper, Char.isLower,
    ge_iff_le, hle, hne0, hneI, hneO, hnel, Bool.or_eq_true, Bool.and_eq_true,
    decide_eq_true_eq, UInt32.toNat_ofNat, UInt32.size]
  omega


/-- A successful key lookup implies the JSON value is a nonempty
dictionary, hence truthy. -/
theorem Json.truthy_of_get (j v : Json) (k : String) (h : j.get? k = some v) :
    j.truthy = true := by
  cases j <;> simp [Json.get?] at h
  case obj fs =>
    cases fs with
    | nil => simp [List.lookup] at h
    | cons p l => simp [Json.truthy]

/-- On a valid, unseen address the handler trace starts with the
registry insertion followed by the quote call, whatever the network
does afterwards; no later event is an insertion or a quote call, and
the registry afterwards is the old one with the address inserted. -/
theorem handle_message_unseen_shape (env : Env) (s : List String) (addr : String)
    (hv : is_valid_solana_address addr = true) (hs : addr ∉ s) :
    ∃ rest, (handle_message env s addr).events =
        .registryInsert addr :: .quoteCall (jupiterQuoteParams addr) :: rest ∧
      (∀ e ∈ rest, e.isQuoteCall = false ∧ e.isInsert = false) ∧
      (handle_message env s addr).processed = s.insert addr := by
  obtain ⟨gcid, qo, fok⟩ := env
  unfold handle_message
  simp only [hv, Bool.not_true, Bool.false_eq_true, if_false, if_neg hs]
  cases hq : execute_jupiter_swap qo with
  | none =>
    refine ⟨[.reply quoteFailedMsg], ?_, ?_, ?_⟩ <;> trivial
  | some q =>
    cases ht : q.truthy with
    | false =>
      simp only [ht, Bool.not_false, if_true]
      refine ⟨[.reply quoteFailedMsg], ?_, ?_, ?_⟩ <;> trivial
    | true =>
      simp only [ht, Bool.not_true, Bool.false_eq_true, if_false]
      cases hg : gcid with
      | none =>
        cases ha : q.get? "outAmount" with
        | none =>
          refine ⟨[], ?_, ?_, ?_⟩ <;> trivial
        | some amt =>
          refine ⟨[.reply (senderReplyText addr amt.pyStr)], ?_, ?_, ?_⟩ <;>
            first | trivial | simp [Event.isQuoteCall, Event.isInsert]
      | some gid =>
        cases hgid : (gid == "") with
        | true =>
          simp only [hgid, if_true]
          cases ha : q.get? "outAmount" with
          | none =>
            refine ⟨[], ?_, ?_, ?_⟩ <;> trivial
          | some amt =>
            refine ⟨[.reply (senderReplyText addr amt.pyStr)], ?_, ?_, ?_⟩ <;>
              first | trivial | simp [Event.isQuoteCall, Event.isInsert]
        | false =>
          simp only [hgid, Bool.false_eq_true, if_false]
          cases ha : q.get? "outAmount" with
          | none =>
            refine ⟨[], ?_, ?_, ?_⟩ <;> trivial
          | some amt =>
            refine ⟨[.forwardSend gid (groupText addr amt.pyStr) fok,
              .reply (senderReplyText addr amt.pyStr)], ?_, ?_, ?_⟩ <;>
              first | trivial | simp [Event.isQuoteCall, Event.isInsert]

/-! ## Claim C1: the address validator -/

/-- C1, counterexample: the claim says the validator returns true iff
the length is in [32,44] and every character is in the base-58
alphabet; on 32 valid characters followed by a newline the validator
returns true although the newline is outside the alphabet, because the
Python dollar anchor also matches just before one trailing newline. -/
theorem C1_counterexample :
    ¬ (is_valid_solana_address badNewlineAddr = true ↔
        (32 ≤ badNewlineAddr.length ∧ badNewlineAddr.length ≤ 44 ∧
          ∀ c ∈ badNewlineAddr.data, specBase58Char c = true)) := by
  decide

/-- C1, amended: `is_valid_solana_address` returns true iff the string
is 32 to 44 characters of the base-58 alphabet (digits 1-9, uppercase
letters except I and O, lowercase letters except l), or such a string
followed by one trailing newline. -/
theorem C1_valid_iff (s : String) :
    is_valid_solana_address s = true ↔
      ((32 ≤ s.length ∧ s.length ≤ 44 ∧ ∀ c ∈ s.data, specBase58Char c = true) ∨
       (s.data.getLast? = some '\n' ∧ 32 ≤ s.data.dropLast.length ∧
         s.data.dropLast.length ≤ 44 ∧
         ∀ c ∈ s.data.dropLast, specBase58Char c = true)) := by
  simp only [is_valid_solana_address, base58Core, String.length, Bool.or_eq_true,
    Bool.and_eq_true, beq_iff_eq, decide_eq_true_eq, List.all_eq_true,
    isBase58Char_eq_spec]
  tauto

/-! ## Claim C2: a successful response without an outAmount field -/

/-- C2: the claim says a successful HTTP response whose JSON body lacks
the outAmount field is treated as a quote failure, with the generic
failure reply and no unhandled exception.  The code disagrees: on a
200 response with a truthy body lacking outAmount, the handler dies on
an unhandled `KeyError` while formatting the sender reply of line 112
and sends no reply at all, with or without a configured group chat. -/
theorem C2_missing_outAmount_crashes :
    (handle_message ⟨none, .response 200 (some bodyWithoutOutAmount), true⟩ []
        wrappedSol =
      ⟨[.registryInsert wrappedSol, .quoteCall (jupiterQuoteParams wrappedSol)],
        [wrappedSol], .unhandledKeyError "outAmount"⟩) ∧
    (handle_message ⟨some "-100123", .response 200 (some bodyWithoutOutAmount), true⟩
        [] wrappedSol =
      ⟨[.registryInsert wrappedSol, .quoteCall (jupiterQuoteParams wrappedSol)],
        [wrappedSol], .unhandledKeyError "outAmount"⟩) := by
  exact ⟨rfl, rfl⟩

/-! ## Claim C5: invalid address, no effects -/

/-- C5: on a message whose text fails validation the handler replies
with the rejection message and stops: the registry is unchanged and no
quote call (and no other event) happens. -/
theorem C5_invalid_rejected (env : Env) (s : List String) (t : String)
    (hv : is_valid_solana_address t = false) :
    handle_message env s t = ⟨[.reply invalidAddressMsg], s, .ok⟩ ∧
    (handle_message env s t).processed = s ∧
    (handle_message env s t).events.filter Event.isQuoteCall = [] := by
  have h : handle_message env s t = ⟨[.reply invalidAddressMsg], s, .ok⟩ := by
    simp [handle_message, hv]
  refine ⟨h, ?_, ?_⟩
  · rw [h]
  · rw [h]; rfl

/-- C5, witness at a concrete invalid input. -/
theorem C5_witness :
    handle_message ⟨none, .transportError, true⟩ ["x"] "short" =
      ⟨[.reply invalidAddressMsg], ["x"], .ok⟩ ∧
    (handle_message ⟨none, .transportError, true⟩ ["x"] "short").processed = ["x"] ∧
    (handle_message ⟨none, .transportError, true⟩ ["x"] "short").events.filter
      Event.isQuoteCall = [] :=
  C5_invalid_rejected ⟨none, .transportError, true⟩ ["x"] "short" (by decide)

/-! ## Claim C4: quote failure on a valid, unseen address -/

/-- C4: on a valid, unseen address whose quote call fails, the handler
sends exactly one generic failure reply and no forward, the address is
in the registry afterwards, and a later re-submission (under any
environment) gets the already-processed reply and triggers no second
quote call. -/
theorem C4_quote_failure_effects (env env2 : Env) (s : List String) (addr : String)
    (hv : is_valid_solana_address addr = true) (hs : addr ∉ s)
    (hq : execute_jupiter_swap env.quoteOutcome = none) :
    (handle_message env s addr).events =
      [.registryInsert addr, .quoteCall (jupiterQuoteParams addr),
        .reply quoteFailedMsg] ∧
    (handle_message env s addr).events.filter Event.isReply =
      [.reply quoteFailedMsg] ∧
    (handle_message env s addr).events.filter Event.isForward = [] ∧
    (handle_message env s addr).processed = s.insert addr ∧
    addr ∈ (handle_message env s addr).processed ∧
    (handle_message env s addr).outcome = .ok ∧
    (handle_message env2 (handle_message env s addr).processed addr).events =
      [.reply alreadyProcessedMsg] ∧
    (handle_message env2 (handle_message env s addr).processed addr).events.filter
      Event.isQuoteCall = [] := by
  have hmem : addr ∈ s.insert addr := List.mem_insert_self addr s
  have hr : handle_message env s addr =
      ⟨[.registryInsert addr, .quoteCall (jupiterQuoteParams addr),
        .reply quoteFailedMsg], s.insert addr, .ok⟩ := by
    simp [handle_message, hv, hs, hq]
  have hr2 : handle_message env2 (s.insert addr) addr =
      ⟨[.reply alreadyProcessedMsg], s.insert addr, .ok⟩ := by
    simp [handle_message, hv, hmem]
  refine ⟨?_, ?_, ?_, ?_, ?_, ?_, ?_, ?_⟩
  · rw [hr]
  · rw [hr]; rfl
  · rw [hr]; rfl
  · rw [hr]
  · rw [hr]; exact hmem
  · rw [hr]
  · rw [hr]
    show (handle_message env2 (s.insert addr) addr).events =
      [.reply alreadyProcessedMsg]
    rw [hr2]
  · rw [hr]
    show (handle_message env2 (s.insert addr) addr).events.filter
      Event.isQuoteCall = []
    rw [hr2]; rfl

/-- C4, witness: a transport failure on the wrapped-SOL address. -/
theorem C4_witness :
    (handle_message ⟨none, .transportError, true⟩ [] wrappedSol).events =
      [.registryInsert wrappedSol, .quoteCall (jupiterQuoteParams wrappedSol),
        .reply quoteFailedMsg] ∧
    (handle_message ⟨none, .transportError, true⟩ [] wrappedSol).events.filter
      Event.isReply = [.reply quoteFailedMsg] ∧
    (handle_message ⟨none, .transportError, true⟩ [] wrappedSol).events.filter
      Event.isForward = [] ∧
    (handle_message ⟨none, .transportError, true⟩ [] wrappedSol).processed =
      List.insert wrappedSol [] ∧
    wrappedSol ∈ (handle_message ⟨none, .transportError, true⟩ [] wrappedSol).processed ∧
    (handle_message ⟨none, .transportError, true⟩ [] wrappedSol).outcome = .ok ∧
    (handle_message ⟨some "-100123", .response 200 (some goodQuoteBody), true⟩
      (handle_message ⟨none, .transportError, true⟩ [] wrappedSol).processed
      wrappedSol).events = [.reply alreadyProcessedMsg] ∧
    (handle_message ⟨some "-100123", .response 200 (some goodQuoteBody), true⟩
      (handle_message ⟨none, .transportError, true⟩ [] wrappedSol).processed
      wrappedSol).events.filter Event.isQuoteCall = [] :=
  C4_quote_failure_effects ⟨none, .transportError, true⟩
    ⟨some "-100123", .response 200 (some goodQuoteBody), true⟩ [] wrappedSol
    (by decide) (by simp) rfl

/-! ## Claim C6: marking seen precedes the quote call -/

/-- C6: on a valid, unseen address the registry insertion is the first
event and the quote call the second, whatever the network then does;
submitting the same address again afterwards yields the
already-processed reply and no second quote call. -/
theorem C6_mark_seen_before_quote (env env2 : Env) (s : List String) (addr : String)
    (hv : is_valid_solana_address addr = true) (hs : addr ∉ s) :
    (handle_message env s addr).events.take 2 =
      [.registryInsert addr, .quoteCall (jupiterQuoteParams addr)] ∧
    (handle_message env s addr).events.filter Event.isQuoteCall =
      [.quoteCall (jupiterQuoteParams addr)] ∧
    (handle_message env2 (handle_message env s addr).processed addr).events =
      [.reply alreadyProcessedMsg] ∧
    (handle_message env2 (handle_message env s addr).processed addr).events.filter
      Event.isQuoteCall = [] := by
  obtain ⟨rest, he, hrest, hp⟩ := handle_message_unseen_shape env s addr hv hs
  have hrestf : rest.filter Event.isQuoteCall = [] := by
    rw [List.filter_eq_nil_iff]
    intro e hee
    simp [(hrest e hee).1]
  have hmem : addr ∈ (handle_message env s addr).processed := by
    rw [hp]; exact List.mem_insert_self addr s
  have hr2 : handle_message env2 ((handle_message env s addr).processed) addr =
      ⟨[.reply alreadyProcessedMsg], (handle_message env s addr).processed, .ok⟩ := by
    generalize (handle_message env s addr).processed = s2 at hmem ⊢
    simp [handle_message, hv, hmem]
  refine ⟨?_, ?_, ?_, ?_⟩
  · rw [he]; rfl
  · rw [he]
    simp [List.filter, Event.isQuoteCall, Event.isInsert, hrestf]
  · rw [hr2]
  · rw [hr2]; rfl

/-- C6, witness: two back-to-back submissions of the wrapped-SOL
address. -/
theorem C6_witness :
    (handle_message ⟨none, .response 200 (some goodQuoteBody), true⟩ []
      wrappedSol).events.take 2 =
      [.registryInsert wrappedSol, .quoteCall (jupiterQuoteParams wrappedSol)] ∧
    (handle_message ⟨none, .response 200 (some goodQuoteBody), true⟩ []
      wrappedSol).events.filter Event.isQuoteCall =
      [.quoteCall (jupiterQuoteParams wrappedSol)] ∧
    (handle_message ⟨none, .response 200 (some goodQuoteBody), true⟩
      (handle_message ⟨none, .response 200 (some goodQuoteBody), true⟩ []
        wrappedSol).processed wrappedSol).events =
      [.reply alreadyProcessedMsg] ∧
    (handle_message ⟨none, .response 200 (some goodQuoteBody), true⟩
      (handle_message ⟨none, .response 200 (some goodQuoteBody), true⟩ []
        wrappedSol).processed wrappedSol).events.filter Event.isQuoteCall = [] :=
  C6_mark_seen_before_quote ⟨none, .response 200 (some goodQuoteBody), true⟩
    ⟨none, .response 200 (some goodQuoteBody), true⟩ [] wrappedSol
    (by decide) (by simp)

/-! ## Claim C3: successful quote fan-out -/

/-- C3: on a valid, unseen address whose quote call succeeds with an
outAmount field, the handler produces exactly one sender reply (which
contains the rendered outAmount), exactly one registry insertion,
exactly one forward when a group chat is configured and none when it
is not, and finishes normally. -/
theorem C3_success_fanout (env : Env) (s : List String) (addr : String)
    (j amt : Json)
    (hv : is_valid_solana_address addr = true)
    (hs : addr ∉ s)
    (hq : execute_jupiter_swap env.quoteOutcome = some j)
    (ha : j.get? "outAmount" = some amt) :
    (handle_message env s addr).events.filter Event.isReply =
      [.reply (senderReplyText addr amt.pyStr)] ∧
    (∃ pre post, senderReplyText addr amt.pyStr = pre ++ amt.pyStr ++ post) ∧
    (handle_message env s addr).events.filter Event.isInsert =
      [.registryInsert addr] ∧
    (handle_message env s addr).processed = s.insert addr ∧
    (groupConfigured env.group_chat_id = true →
      ∃ gid, env.group_chat_id = some gid ∧
        (handle_message env s addr).events.filter Event.isForward =
          [.forwardSend gid (groupText addr amt.pyStr) env.forwardOk]) ∧
    (groupConfigured env.group_chat_id = false →
      (handle_message env s addr).events.filter Event.isForward = []) ∧
    (handle_message env s addr).outcome = .ok := by
  obtain ⟨gcid, qo, fok⟩ := env
  have ht : j.truthy = true := Json.truthy_of_get j amt "outAmount" ha
  have hpre : senderReplyText addr amt.pyStr =
      ("Processing swap for address: " ++ addr ++ "\nQuote received: ")
        ++ amt.pyStr ++ " tokens" := rfl
  cases gcid with
  | none =>
    have hr : handle_message ⟨none, qo, fok⟩ s addr =
        ⟨[.registryInsert addr, .quoteCall (jupiterQuoteParams addr),
          .reply (senderReplyText addr amt.pyStr)], s.insert addr, .ok⟩ := by
      simp [handle_message, hv, hs, hq, ht, ha]
    refine ⟨?_, ⟨_, _, hpre⟩, ?_, ?_, ?_, ?_, ?_⟩
    · rw [hr]; rfl
    · rw [hr]; rfl
    · rw [hr]
    · intro hcfg; simp [groupConfigured] at hcfg
    · intro _; rw [hr]; rfl
    · rw [hr]
  | some gid =>
    cases hgid : (gid == "") with
    | true =>
      have hgid' : gid = "" := by simpa using hgid
      subst hgid'
      have hr : handle_message ⟨some "", qo, fok⟩ s addr =
          ⟨[.registryInsert addr, .quoteCall (jupiterQuoteParams addr),
            .reply (senderReplyText addr amt.pyStr)], s.insert addr, .ok⟩ := by
        simp [handle_message, hv, hs, hq, ht, ha]
      refine ⟨?_, ⟨_, _, hpre⟩, ?_, ?_, ?_, ?_, ?_⟩
      · rw [hr]; rfl
      · rw [hr]; rfl
      · rw [hr]
      · intro hcfg; simp [groupConfigured] at hcfg
      · intro _; rw [hr]; rfl
      · rw [hr]
    | false =>
      have hr : handle_message ⟨some gid, qo, fok⟩ s addr =
          ⟨[.registryInsert addr, .quoteCall (jupiterQuoteParams addr),
            .forwardSend gid (groupText addr amt.pyStr) fok,
            .reply (senderReplyText addr amt.pyStr)], s.insert addr, .ok⟩ := by
        simp [handle_message, hv, hs, hq, ht, ha, hgid]
      refine ⟨?_, ⟨_, _, hpre⟩, ?_, ?_, ?_, ?_, ?_⟩
      · rw [hr]; rfl
      · rw [hr]; rfl
      · rw [hr]
      · intro _; exact ⟨gid, rfl, by rw [hr]; rfl⟩
      · intro hcfg
        simp [groupConfigured] at hcfg
        simp [hcfg] at hgid
      · rw [hr]

/-- C3, witness: wrapped-SOL address, a 200 response with an outAmount
field, and a configured group chat. -/
theorem C3_witness :
    (handle_message ⟨some "-100123", .response 200 (some goodQuoteBody), true⟩ []
      wrappedSol).events.filter Event.isReply =
      [.reply (senderReplyText wrappedSol (Json.str "123456").pyStr)] ∧
    (∃ pre post, senderReplyText wrappedSol (Json.str "123456").pyStr =
      pre ++ (Json.str "123456").pyStr ++ post) ∧
    (handle_message ⟨some "-100123", .response 200 (some goodQuoteBody), true⟩ []
      wrappedSol).events.filter Event.isInsert = [.registryInsert wrappedSol] ∧
    (handle_message ⟨some "-100123", .response 200 (some goodQuoteBody), true⟩ []
      wrappedSol).processed = List.insert wrappedSol [] ∧
    (groupConfigured (some "-100123") = true →
      ∃ gid, (some "-100123" : Option String) = some gid ∧
        (handle_message ⟨some "-100123", .response 200 (some goodQuoteBody), true⟩ []
          wrappedSol).events.filter Event.isForward =
          [.forwardSend gid (groupText wrappedSol (Json.str "123456").pyStr) true]) ∧
    (groupConfigured (some "-100123") = false →
      (handle_message ⟨some "-100123", .response 200 (some goodQuoteBody), true⟩ []
        wrappedSol).events.filter Event.isForward = []) ∧
    (handle_message ⟨some "-100123", .response 200 (some goodQuoteBody), true⟩ []
      wrappedSol).outcome = .ok :=
  C3_success_fanout ⟨some "-100123", .response 200 (some goodQuoteBody), true⟩ []
    wrappedSol goodQuoteBody (Json.str "123456") (by decide) (by simp) rfl rfl

/-! ## Claim C9: forward failure is swallowed -/

/-- C9: with a configured group chat and a successful quote carrying an
outAmount field, a failed forward delivery is swallowed: the handler
still finishes normally and sends the very same sender reply as when
the forward succeeds, with the same registry afterwards. -/
theorem C9_forward_failure_swallowed (gid : String) (qo : HttpOutcome)
    (s : List String) (addr : String) (j amt : Json)
    (hgid : (gid == "") = false)
    (hv : is_valid_solana_address addr = true) (hs : addr ∉ s)
    (hq : execute_jupiter_swap qo = some j)
    (ha : j.get? "outAmount" = some amt) :
    (handle_message ⟨some gid, qo, false⟩ s addr).outcome = .ok ∧
    (handle_message ⟨some gid, qo, false⟩ s addr).events.filter Event.isReply =
      (handle_message ⟨some gid, qo, true⟩ s addr).events.filter Event.isReply ∧
    (handle_message ⟨some gid, qo, false⟩ s addr).events.filter Event.isReply =
      [.reply (senderReplyText addr amt.pyStr)] ∧
    (handle_message ⟨some gid, qo, false⟩ s addr).processed =
      (handle_message ⟨some gid, qo, true⟩ s addr).processed := by
  have ht : j.truthy = true := Json.truthy_of_get j amt "outAmount" ha
  have hr : ∀ fok : Bool, handle_message ⟨some gid, qo, fok⟩ s addr =
      ⟨[.registryInsert addr, .quoteCall (jupiterQuoteParams addr),
        .forwardSend gid (groupText addr amt.pyStr) fok,
        .reply (senderReplyText addr amt.pyStr)], s.insert addr, .ok⟩ := by
    intro fok
    simp [handle_message, hv, hs, hq, ht, ha, hgid]
  refine ⟨?_, ?_, ?_, ?_⟩
  · rw [hr false]
  · rw [hr false, hr true]; rfl
  · rw [hr false]; rfl
  · rw [hr false, hr true]

/-- C9, witness: the forward to group chat -100123 fails while the
quote succeeded. -/
theorem C9_witness :
    (handle_message ⟨some "-100123", .response 200 (some goodQuoteBody), false⟩ []
      wrappedSol).outcome = .ok ∧
    (handle_message ⟨some "-100123", .response 200 (some goodQuoteBody), false⟩ []
      wrappedSol).events.filter Event.isReply =
      (handle_message ⟨some "-100123", .response 200 (some goodQuoteBody), true⟩ []
        wrappedSol).events.filter Event.isReply ∧
    (handle_message ⟨some "-100123", .response 200 (some goodQuoteBody), false⟩ []
      wrappedSol).events.filter Event.isReply =
      [.reply (senderReplyText wrappedSol (Json.str "123456").pyStr)] ∧
    (handle_message ⟨some "-100123", .response 200 (some goodQuoteBody), false⟩ []
      wrappedSol).processed =
      (handle_message ⟨some "-100123", .response 200 (some goodQuoteBody), true⟩ []
        wrappedSol).processed :=
  C9_forward_failure_swallowed "-100123" (.response 200 (some goodQuoteBody)) []
    wrappedSol goodQuoteBody (Json.str "123456") rfl (by decide) (by simp) rfl rfl

/-! ## Claim C10: falsy JSON body behaves like a transport failure -/

/-- C10: on a valid, unseen address, a 2xx response whose parsed body
is falsy (empty object, empty array, null, zero, empty string) is
handled exactly like a transport failure: same result, the only reply
is the generic failure message, no forward, and the address stays in
the registry. -/
theorem C10_falsy_body_is_failure (gcid : Option String) (fok : Bool)
    (s : List String) (addr : String) (j : Json) (st : Nat)
    (hv : is_valid_solana_address addr = true) (hs : addr ∉ s)
    (hst : 200 ≤ st ∧ st < 300) (hj : j.truthy = false) :
    handle_message ⟨gcid, .response st (some j), fok⟩ s addr =
      handle_message ⟨gcid, .transportError, fok⟩ s addr ∧
    (handle_message ⟨gcid, .response st (some j), fok⟩ s addr).events =
      [.registryInsert addr, .quoteCall (jupiterQuoteParams addr),
        .reply quoteFailedMsg] ∧
    (handle_message ⟨gcid, .response st (some j), fok⟩ s addr).events.filter
      Event.isForward = [] ∧
    addr ∈ (handle_message ⟨gcid, .response st (some j), fok⟩ s addr).processed ∧
    (handle_message ⟨gcid, .response st (some j), fok⟩ s addr).outcome = .ok := by
  obtain ⟨hst1, hst2⟩ := hst
  have hrfs : raise_for_status_raises st = false := by
    simp [raise_for_status_raises]
    omega
  have hq1 : execute_jupiter_swap (.response st (some j)) = some j := by
    simp [execute_jupiter_swap, hrfs]
  have hr1 : handle_message ⟨gcid, .response st (some j), fok⟩ s addr =
      ⟨[.registryInsert addr, .quoteCall (jupiterQuoteParams addr),
        .reply quoteFailedMsg], s.insert addr, .ok⟩ := by
    simp [handle_message, hv, hs, hq1, hj]
  have hr0 : handle_message ⟨gcid, .transportError, fok⟩ s addr =
      ⟨[.registryInsert addr, .quoteCall (jupiterQuoteParams addr),
        .reply quoteFailedMsg], s.insert addr, .ok⟩ := by
    simp [handle_message, hv, hs, execute_jupiter_swap]
  refine ⟨?_, ?_, ?_, ?_, ?_⟩
  · rw [hr1, hr0]
  · rw [hr1]
  · rw [hr1]; rfl
  · rw [hr1]; exact List.mem_insert_self addr s
  · rw [hr1]

/-- C10, witness: a 200 response whose body is the empty JSON object. -/
theorem C10_witness :
    handle_message ⟨some "-100123", .response 200 (some (Json.obj [])), true⟩ []
      wrappedSol =
      handle_message ⟨some "-100123", .transportError, true⟩ [] wrappedSol ∧
    (handle_message ⟨some "-100123", .response 200 (some (Json.obj [])), true⟩ []
      wrappedSol).events =
      [.registryInsert wrappedSol, .quoteCall (jupiterQuoteParams wrappedSol),
        .reply quoteFailedMsg] ∧
    (handle_message ⟨some "-100123", .response 200 (some (Json.obj [])), true⟩ []
      wrappedSol).events.filter Event.isForward = [] ∧
    wrappedSol ∈ (handle_message ⟨some "-100123",
      .response 200 (some (Json.obj [])), true⟩ [] wrappedSol).processed ∧
    (handle_message ⟨some "-100123", .response 200 (some (Json.obj [])), true⟩ []
      wrappedSol).outcome = .ok :=
  C10_falsy_body_is_failure (some "-100123") true [] wrappedSol (Json.obj []) 200
    (by decide) (by simp) (by omega) rfl

/-! ## Claim C7: the quote client never raises -/

/-- C7, counterexample: the claim says any non-2xx status yields a
failure result, but `raise_for_status` raises only on 4xx and 5xx, so
a 304 response with a parsable body is returned as a success. -/
theorem C7_counterexample :
    execute_jupiter_swap (.response 304 (some goodQuoteBody)) =
      some goodQuoteBody ∧
    ¬ (200 ≤ 304 ∧ 304 < 300) := ⟨rfl, by omega⟩

/-- C7, amended: the quote client is a total function of the HTTP
outcome — it never raises — returning a failure result on a transport
error, a 4xx or 5xx status, or an unparsable body, and the parsed body
on every other response. -/
theorem C7_total_behavior (o : HttpOutcome) :
    execute_jupiter_swap o = quoteClientContract o := by
  cases o with
  | transportError => rfl
  | response st body =>
    by_cases h : 400 ≤ st ∧ st < 600
    · have hb : raise_for_status_raises st = true := by
        simp [raise_for_status_raises]
        omega
      simp [execute_jupiter_swap, quoteClientContract, hb, h]
    · have hb : raise_for_status_raises st = false := by
        simp [raise_for_status_raises]
        omega
      cases body <;> simp [execute_jupiter_swap, quoteClientContract, hb, h]

/-! ## Claim C8: the fixed quote parameters -/

/-- C8: for every output address the quote request carries exactly the
wrapped-SOL input mint, the amount string 10000000, slippage 1500
basis points, and the caller's address as output mint. -/
theorem C8_fixed_params (addr : String) :
    jupiterQuoteParams addr =
      { inputMint := "So11111111111111111111111111111111111111112"
        outputMint := addr
        amount := "10000000"
        slippageBps := 1500 } ∧
    (jupiterQuoteParams addr).inputMint =
      "So11111111111111111111111111111111111111112" ∧
    (jupiterQuoteParams addr).outputMint = addr ∧
    (jupiterQuoteParams addr).amount = "10000000" ∧
    (jupiterQuoteParams addr).slippageBps = 1500 :=
  ⟨rfl, rfl, rfl, rfl, rfl⟩
